import Mathlib

/-!
Shallow embedding of the serial poller composable (`useSerialPoller`) from
`src/unnamed/part_000`.

The poller is single-threaded and cooperative: the only suspension point is
the awaited fetcher call inside `runOnce`.  We therefore split `runOnce` into
its synchronous *begin* phase (everything up to and including starting the
fetch) and its synchronous *finish* phases (the `try`-success path, the
`catch` path, and the shared `finally` block), each an explicit state
transformer.  JavaScript numbers used for delays/timestamps are modelled as
`Int`; the `Number.isFinite` test on `retryAfter` is modelled by a dedicated
`JSNum` type with a non-finite constructor.  The reactive `enabled`
ref/boolean is read afresh at each synchronous phase, so each phase takes the
current value as a `Bool` parameter.  Vue refs are plain fields of the state
record; callbacks (`onData`/`onError`) are modelled as emitted events.

Ghost state: the source keeps at most one `AbortController` in the module
variable `controller`.  To reason about *liveness* of cancellation handles we
additionally log every allocated controller id (`nextCtrlId` allocator),
which ids have been aborted (`abortedIds`), and which fetcher invocations are
still unsettled (`pendingOps`, pairs of generation and controller id).  These
fields only record what happens; they never influence the behaviour of the
translated operations.
-/

namespace SerialPoller

/-- A JavaScript number as far as `parseRetryAfterMs` cares: either a finite
numeric value or a non-finite one (`NaN`, `±Infinity`). -/
inductive JSNum where
  | fin (v : Int)
  | nonFinite
deriving DecidableEq, Repr

/-- The failure shape inspected by the poller: optional `status` and
`retryAfter` (as on `ApiClientError`), plus the fields consulted by the
cancellation test in the `catch` block (`code === 'ERR_CANCELED'` and
`axios.isCancel(e)`). -/
structure ErrVal where
  status : Option Int
  retryAfter : Option JSNum
  code : Option String
  axiosCancel : Bool
deriving DecidableEq, Repr

/-- `SerialPollerConcurrency`. -/
inductive Concurrency where
  | abortPrevious
  | ignoreIfRunning
deriving DecidableEq, Repr

/-- `SerialPollerOptions` (minus the callbacks, which are modelled as emitted
events, and minus `enabled`, which is re-read at each decision point and so
is a parameter of each phase). `none` on the optional fields is the source's
`undefined`, resolved by `??` at use sites. -/
structure Options where
  intervalMs : Int
  immediate : Bool
  concurrency : Concurrency
  defaultRetryAfterMs : Option Int
  maxRetryAfterMs : Option Int
deriving DecidableEq, Repr

/-- The poller's mutable state: the refs (`data` … `busyUntil`), the module
variables (`timer`, `generation`, `controller`), and the ghost log of
controllers (`nextCtrlId`, `abortedIds`, `pendingOps`).  `timer` is `some d`
when a trigger is pending that was scheduled with delay `d`. -/
structure PollerState where
  data : Option Int
  error : Option ErrVal
  loading : Bool
  isRunning : Bool
  inFlight : Bool
  busy : Bool
  busyUntil : Option Int
  timer : Option Int
  generation : Nat
  controller : Option Nat
  nextCtrlId : Nat
  abortedIds : List Nat
  pendingOps : List (Nat × Nat)
deriving DecidableEq, Repr

/-- `clearTimer`: cancel the pending timeout, if any. -/
def clearTimer (s : PollerState) : PollerState :=
  { s with timer := none }

/-- `abortInFlight`: if a controller is held, abort it and drop the
reference. -/
def abortInFlight (s : PollerState) : PollerState :=
  match s.controller with
  | some i => { s with abortedIds := i :: s.abortedIds, controller := none }
  | none => s

/-- `schedule(delayMs)`: clear the pending timer, then set a new one firing
after `delayMs` — unless the poller is not running or the enabled flag
currently reads false. -/
def schedule (enabled : Bool) (delayMs : Int) (s : PollerState) : PollerState :=
  let s := clearTimer s
  if !s.isRunning then s
  else if !enabled then s
  else { s with timer := some delayMs }

/-- `parseRetryAfterMs`: the `retryAfter` field when it is a finite number,
otherwise `null`. -/
def parseRetryAfterMs (e : ErrVal) : Option Int :=
  match e.retryAfter with
  | some (.fin v) => some v
  | _ => none

/-- `clampRetryAfter`: `Math.max(0, Math.min(ms, maxRetryAfterMs ?? 60000))`. -/
def clampRetryAfter (opts : Options) (ms : Int) : Int :=
  max 0 (min ms (opts.maxRetryAfterMs.getD 60000))

/-- The cancellation test at the top of the `catch` block:
`code === 'ERR_CANCELED' || axios.isCancel(e) || controller?.signal.aborted`.
Note that `controller` here is the *current* module variable, not the
controller of the finishing cycle. -/
def isCancelShaped (s : PollerState) (e : ErrVal) : Bool :=
  e.code == some "ERR_CANCELED" || e.axiosCancel ||
    (match s.controller with
     | some i => s.abortedIds.contains i
     | none => false)

/-- `++generation`. -/
def bumpGeneration (s : PollerState) : PollerState :=
  { s with generation := s.generation + 1 }

/-- `controller = new AbortController()`: allocate a fresh controller id and
hold it. -/
def allocController (s : PollerState) : PollerState :=
  { s with controller := some s.nextCtrlId, nextCtrlId := s.nextCtrlId + 1 }

/-- The writes performed by `runOnce` right after creating the controller:
`inFlight = true; loading = true; busy = false; busyUntil = null;
error = null`. -/
def setStartFlags (s : PollerState) : PollerState :=
  { s with inFlight := true, loading := true, busy := false,
           busyUntil := none, error := none }

/-- Ghost step: the fetcher is invoked with generation `g` and controller
`c`; record the operation as unsettled. -/
def fetchStart (g c : Nat) (s : PollerState) : PollerState :=
  { s with pendingOps := (g, c) :: s.pendingOps }

/-- Ghost step: the fetcher invocation of generation `g` settled (resolved or
rejected); it is no longer pending. -/
def opSettle (g : Nat) (s : PollerState) : PollerState :=
  { s with pendingOps := s.pendingOps.filter (fun p => p.1 ≠ g) }

/-- Outcome of the begin phase of `runOnce`: either one of the early
returns (`skip`, state unchanged by construction of the source), or a fetch
was started with the captured generation and the fresh controller id. -/
inductive BeginResult where
  | skip (s : PollerState)
  | started (s : PollerState) (myGen : Nat) (ctrlId : Nat)
deriving DecidableEq, Repr

/-- The state carried by a `BeginResult`. -/
def BeginResult.state : BeginResult → PollerState
  | .skip s => s
  | .started s _ _ => s

/-- Whether the begin phase actually started a fetch. -/
def BeginResult.isStarted : BeginResult → Bool
  | .skip _ => false
  | .started _ _ _ => true

/-- The synchronous prefix of `runOnce`, up to and including the fetcher
call: the enabled check, the in-flight/concurrency check, `abortInFlight`
under `abortPrevious`, generation bump, controller creation, flag writes,
and the start of the fetch. -/
def runOnceBegin (opts : Options) (enabled : Bool) (s : PollerState) :
    BeginResult :=
  if !enabled then .skip s
  else if s.inFlight && (opts.concurrency == .ignoreIfRunning) then .skip s
  else
    let s1 := if s.inFlight then abortInFlight s else s
    let s2 := bumpGeneration s1
    let myGen := s2.generation
    let cid := s2.nextCtrlId
    let s3 := allocController s2
    let s4 := setStartFlags s3
    let s5 := fetchStart myGen cid s4
    .started s5 myGen cid

/-- Result of a finish phase: the new state, the callbacks that fired, and
the value the enclosing `runOnce` promise resolves with for its direct
caller (`none` = `undefined`). -/
inductive PollerEvent where
  | onData (v : Int)
  | onError (e : ErrVal)
deriving DecidableEq, Repr

/-- State, fired callbacks, and direct-caller return value of a completed
`runOnce`. -/
structure CycleOutcome where
  state : PollerState
  events : List PollerEvent
  ret : Option Int
deriving DecidableEq, Repr

/-- The `finally` block of `runOnce`: clear `inFlight`/`loading` only when
the finishing cycle's generation is still current, then schedule the next
interval poll when running, enabled and not in 429 retry mode. -/
def finallyPart (opts : Options) (enabled : Bool) (myGen : Nat)
    (s : PollerState) : PollerState :=
  let s := if myGen = s.generation then
      { s with inFlight := false, loading := false }
    else s
  if s.isRunning && enabled && !s.busy then schedule enabled opts.intervalMs s
  else s

/-- The success path of `runOnce` after the fetcher resolved with `res`:
commit `data` and fire `onData` only when the captured generation is still
current, run the `finally` block, and resolve the promise with `res`
unconditionally. -/
def finishSuccess (opts : Options) (enabled : Bool) (myGen : Nat) (res : Int)
    (s : PollerState) : CycleOutcome :=
  let s := opSettle myGen s
  if myGen = s.generation then
    { state := finallyPart opts enabled myGen { s with data := some res },
      events := [.onData res], ret := some res }
  else
    { state := finallyPart opts enabled myGen s, events := [], ret := some res }

/-- The `catch` path of `runOnce` after the fetcher rejected with `e` at
wall-clock time `now`: cancellation-shaped failures are suppressed entirely;
otherwise the error is stored and `onError` fired, and a 429 status
additionally enters backoff and schedules the clamped retry delay.  The
`finally` block runs on every path; the promise resolves with `undefined`. -/
def finishFailure (opts : Options) (enabled : Bool) (now : Int) (myGen : Nat)
    (e : ErrVal) (s : PollerState) : CycleOutcome :=
  let s := opSettle myGen s
  if isCancelShaped s e then
    { state := finallyPart opts enabled myGen s, events := [], ret := none }
  else
    let s := { s with error := some e }
    if e.status = some 429 then
      let d := clampRetryAfter opts
        ((parseRetryAfterMs e).getD (opts.defaultRetryAfterMs.getD 1000))
      let s := { s with busy := true, busyUntil := some (now + d) }
      let s := schedule enabled d s
      { state := finallyPart opts enabled myGen s,
        events := [.onError e], ret := none }
    else
      { state := finallyPart opts enabled myGen s,
        events := [.onError e], ret := none }

/-- `stop()`: leave the running state, cancel the pending timer, abort any
held controller, and reset `inFlight`/`busy`/`busyUntil`. -/
def stop (s : PollerState) : PollerState :=
  let s := { s with isRunning := false }
  let s := clearTimer s
  let s := abortInFlight s
  { s with inFlight := false, busy := false, busyUntil := none }

/-- Result of `start()`: the state it leaves behind, and whether it fired an
immediate cycle (whose begin phase then ran synchronously). -/
structure StartResult where
  state : PollerState
  ranCycle : Bool
deriving DecidableEq, Repr

/-- `start()`: a no-op when already running; otherwise mark running and
either fire an immediate cycle or schedule one interval out. -/
def start (opts : Options) (enabled : Bool) (s : PollerState) : StartResult :=
  if s.isRunning then { state := s, ranCycle := false }
  else
    let s := { s with isRunning := true }
    if opts.immediate then
      { state := (runOnceBegin opts enabled s).state, ranCycle := true }
    else
      { state := schedule enabled opts.intervalMs s, ranCycle := false }

/-- The ids of live cancellation handles: every allocated controller that is
referenced — either as the currently held `controller` or by a still
unsettled fetcher invocation — and has not been aborted. -/
def liveCtrls (s : PollerState) : Finset Nat :=
  ((s.controller.toList ++ s.pendingOps.map Prod.snd).filter
    (fun i => !s.abortedIds.contains i)).toFinset

/-- Well-formedness of the ghost controller log, maintained by the real
executions: a pending operation whose controller was never aborted is the
operation whose controller is currently held, and the allocator is ahead of
every id in the state. -/
def wfb (s : PollerState) : Bool :=
  s.pendingOps.all
    (fun p => s.abortedIds.contains p.2 || s.controller == some p.2) &&
  s.pendingOps.all (fun p => p.2 < s.nextCtrlId) &&
  s.abortedIds.all (fun i => i < s.nextCtrlId) &&
  (match s.controller with
   | some i => decide (i < s.nextCtrlId)
   | none => true)

/-- The freshly constructed poller state: all refs at their initial values,
no timer, generation `0`, no controller ever allocated. -/
def initState : PollerState :=
  { data := none, error := none, loading := false, isRunning := false,
    inFlight := false, busy := false, busyUntil := none, timer := none,
    generation := 0, controller := none, nextCtrlId := 0, abortedIds := [],
    pendingOps := [] }

/-- A sample configuration: 1000 ms interval, defaults everywhere else
(`abortPrevious`, no explicit retry delays). -/
def opts0 : Options :=
  { intervalMs := 1000, immediate := false, concurrency := .abortPrevious,
    defaultRetryAfterMs := none, maxRetryAfterMs := none }

/-- A sample plain (non-cancellation, non-429) failure value. -/
def errPlain : ErrVal :=
  { status := some 500, retryAfter := none, code := none, axiosCancel := false }

/-- A sample 429 failure with a finite suggested retry delay of 5000 ms. -/
def err429 : ErrVal :=
  { status := some 429, retryAfter := some (.fin 5000), code := none,
    axiosCancel := false }

/-- A sample running state with generation-1 fetch in flight under
controller id 0. -/
def inFlightState : PollerState :=
  { initState with
    isRunning := true, inFlight := true, loading := true,
    generation := 1, controller := some 0, nextCtrlId := 1,
    pendingOps := [(1, 0)] }

/-- A sample in-flight state that is additionally in backoff with a pending
timer. -/
def busyStopState : PollerState :=
  { inFlightState with
    timer := some 1000, busy := true, busyUntil := some 60000 }

end SerialPoller

namespace SerialPoller

/-! ### Frame lemmas: which fields each operation leaves untouched -/

theorem clearTimer_frame (s : PollerState) :
    (clearTimer s).data = s.data ∧ (clearTimer s).error = s.error ∧
    (clearTimer s).generation = s.generation ∧
    (clearTimer s).busy = s.busy ∧ (clearTimer s).busyUntil = s.busyUntil := by
  simp [clearTimer]

@[simp] theorem schedule_data (en : Bool) (d : Int) (s : PollerState) :
    (schedule en d s).data = s.data := by
  simp only [schedule, clearTimer]; split <;> [rfl; skip]; split <;> rfl

@[simp] theorem schedule_error (en : Bool) (d : Int) (s : PollerState) :
    (schedule en d s).error = s.error := by
  simp only [schedule, clearTimer]; split <;> [rfl; skip]; split <;> rfl

@[simp] theorem schedule_generation (en : Bool) (d : Int) (s : PollerState) :
    (schedule en d s).generation = s.generation := by
  simp only [schedule, clearTimer]; split <;> [rfl; skip]; split <;> rfl

@[simp] theorem schedule_busy (en : Bool) (d : Int) (s : PollerState) :
    (schedule en d s).busy = s.busy := by
  simp only [schedule, clearTimer]; split <;> [rfl; skip]; split <;> rfl

@[simp] theorem schedule_busyUntil (en : Bool) (d : Int) (s : PollerState) :
    (schedule en d s).busyUntil = s.busyUntil := by
  simp only [schedule, clearTimer]; split <;> [rfl; skip]; split <;> rfl

@[simp] theorem schedule_inFlight (en : Bool) (d : Int) (s : PollerState) :
    (schedule en d s).inFlight = s.inFlight := by
  simp only [schedule, clearTimer]; split <;> [rfl; skip]; split <;> rfl

@[simp] theorem schedule_isRunning (en : Bool) (d : Int) (s : PollerState) :
    (schedule en d s).isRunning = s.isRunning := by
  simp only [schedule, clearTimer]; split <;> [rfl; skip]; split <;> rfl

@[simp] theorem finallyPart_data (opts : Options) (en : Bool) (g : Nat)
    (s : PollerState) : (finallyPart opts en g s).data = s.data := by
  simp only [finallyPart]; split <;> split <;> simp

@[simp] theorem finallyPart_error (opts : Options) (en : Bool) (g : Nat)
    (s : PollerState) : (finallyPart opts en g s).error = s.error := by
  simp only [finallyPart]; split <;> split <;> simp

@[simp] theorem finallyPart_busy (opts : Options) (en : Bool) (g : Nat)
    (s : PollerState) : (finallyPart opts en g s).busy = s.busy := by
  simp only [finallyPart]; split <;> split <;> simp

@[simp] theorem finallyPart_busyUntil (opts : Options) (en : Bool) (g : Nat)
    (s : PollerState) : (finallyPart opts en g s).busyUntil = s.busyUntil := by
  simp only [finallyPart]; split <;> split <;> simp

/-- Claim C1. Success path of `runOnce`: the result is committed (`data`
updated, `onData` fired) exactly when the generation captured at the cycle's
start still equals the current generation counter; a superseded cycle's
result is never committed; and the direct caller receives the computed value
as the promise's resolution in both cases. -/
theorem finishSuccess_commit_iff_current (opts : Options) (en : Bool)
    (myGen : Nat) (res : Int) (s : PollerState) :
    (finishSuccess opts en myGen res s).ret = some res ∧
    (finishSuccess opts en myGen res s).state.data =
      (if myGen = s.generation then some res else s.data) ∧
    (finishSuccess opts en myGen res s).events =
      (if myGen = s.generation then [.onData res] else []) := by
  simp only [finishSuccess, opSettle]
  split <;> simp_all

/-- Claim C5. Under `ignoreIfRunning`, invoking a cycle while an operation is
in flight is a complete no-op: the begin phase returns `skip` with the state
unchanged, so the generation counter does not advance, no controller is
allocated, no fetch starts, and every observable field is untouched. -/
theorem runOnceBegin_ignoreIfRunning_noop (opts : Options) (en : Bool)
    (s : PollerState) (hconc : opts.concurrency = .ignoreIfRunning)
    (hin : s.inFlight = true) :
    runOnceBegin opts en s = .skip s := by
  simp only [runOnceBegin, hconc, hin]
  cases en <;> simp

/-- Witness for `runOnceBegin_ignoreIfRunning_noop` at a concrete in-flight
state. -/
theorem runOnceBegin_ignoreIfRunning_noop_witness :
    runOnceBegin { opts0 with concurrency := .ignoreIfRunning } true
        { initState with inFlight := true, isRunning := true } =
      .skip { initState with inFlight := true, isRunning := true } :=
  runOnceBegin_ignoreIfRunning_noop _ true _ rfl rfl

/-- Claim C8, amended. `schedule(delay)` first cancels any existing pending
timer unconditionally; only then do the not-running / not-enabled guards
apply, so in those cases the call leaves *no* pending timer (rather than
leaving the state unchanged), and otherwise it sets a trigger firing after
`delay`. -/
theorem schedule_clears_then_sets (en : Bool) (d : Int) (s : PollerState) :
    schedule en d s =
      (if s.isRunning && en then { s with timer := some d }
       else { s with timer := none }) := by
  simp only [schedule, clearTimer]
  cases s.isRunning <;> cases en <;> simp

/-- Counterexample for **C8** as stated: with the enablement predicate
false (a reachable situation, since the predicate is dynamic) and a timer
pending, `schedule` is *not* a no-op — it cancels the pending trigger. -/
theorem schedule_not_noop_when_disabled :
    ({ initState with isRunning := true, timer := some 7 } :
        PollerState).timer = some 7 ∧
    (schedule false 10
        { initState with isRunning := true, timer := some 7 }).timer = none ∧
    ¬ schedule false 10 { initState with isRunning := true, timer := some 7 } =
        { initState with isRunning := true, timer := some 7 } := by
  refine ⟨rfl, rfl, ?_⟩
  decide

/-- Claim C10. `start()` while already running is a no-op: it returns before
touching anything, so no immediate cycle fires even when `immediate` is set,
the pending timer, generation counter and all observable fields are left
unchanged. -/
theorem start_noop_when_running (opts : Options) (en : Bool)
    (s : PollerState) (h : s.isRunning = true) :
    start opts en s = { state := s, ranCycle := false } := by
  simp [start, h]

/-- Witness for `start_noop_when_running`: a running state with `immediate`
set and a pending timer is returned untouched. -/
theorem start_noop_when_running_witness :
    start { opts0 with immediate := true } true
        { initState with isRunning := true, timer := some 3 } =
      { state := { initState with isRunning := true, timer := some 3 },
        ranCycle := false } :=
  start_noop_when_running _ true _ rfl

@[simp] theorem isCancelShaped_opSettle (g : Nat) (s : PollerState)
    (e : ErrVal) : isCancelShaped (opSettle g s) e = isCancelShaped s e := rfl

theorem finallyPart_inFlight (opts : Options) (en : Bool) (g : Nat)
    (s : PollerState) :
    (finallyPart opts en g s).inFlight =
      (if g = s.generation then false else s.inFlight) := by
  simp only [finallyPart]
  split <;> split <;> simp_all

theorem finallyPart_timer_of_busy (opts : Options) (en : Bool) (g : Nat)
    (s : PollerState) (hb : s.busy = true) :
    (finallyPart opts en g s).timer = s.timer := by
  simp only [finallyPart]
  split <;> split <;> simp_all

/-- Counterexample for **C3** as stated: a backoff-retry trigger whose
enablement predicate reads false returns at the very first check, leaving
the backoff flag and `busyUntil` set — they are *not* cleared before the
enablement/in-flight checks. -/
theorem backoff_not_cleared_when_disabled :
    runOnceBegin opts0 false
        { initState with isRunning := true, busy := true,
                         busyUntil := some 100 } =
      .skip { initState with isRunning := true, busy := true,
                             busyUntil := some 100 } ∧
    ({ initState with isRunning := true, busy := true,
                      busyUntil := some 100 } : PollerState).busy = true := by
  exact ⟨rfl, rfl⟩

/-- Claim C3, amended. The backoff flag and `busyUntil` are cleared only
*after* a cycle passes the enablement and in-flight checks, as part of
actually starting the fetch (but before the fetcher is invoked, hence before
any new rate-limit signal can arrive); an invocation that returns early —
enablement false, or in-flight under `ignoreIfRunning` — leaves the backoff
state (and everything else) unchanged. -/
theorem backoff_cleared_only_when_cycle_starts (opts : Options) (en : Bool)
    (s : PollerState) :
    ((runOnceBegin opts en s).isStarted = true →
      (runOnceBegin opts en s).state.busy = false ∧
      (runOnceBegin opts en s).state.busyUntil = none) ∧
    ((runOnceBegin opts en s).isStarted = false →
      (runOnceBegin opts en s).state = s) := by
  simp only [runOnceBegin]
  split
  · simp [BeginResult.isStarted, BeginResult.state]
  · split
    · simp [BeginResult.isStarted, BeginResult.state]
    · simp [BeginResult.isStarted, BeginResult.state, fetchStart,
            setStartFlags, allocController, bumpGeneration]

/-- Witness for `backoff_cleared_only_when_cycle_starts`: a started cycle
from a backoff state has `busy` cleared. -/
theorem backoff_cleared_only_when_cycle_starts_witness :
    (runOnceBegin opts0 true
        { initState with isRunning := true, busy := true,
                         busyUntil := some 100 }).state.busy = false :=
  ((backoff_cleared_only_when_cycle_starts opts0 true
      { initState with isRunning := true, busy := true,
                       busyUntil := some 100 }).1 rfl).1

/-- Counterexample for **C2** as stated: a stale cycle (captured generation
3, current counter 5) failing with a plain non-cancellation error still has
its error committed to Observable State and still fires the error callback —
the commit is *not* gated on the generation being current. -/
theorem stale_error_still_committed :
    ({ initState with isRunning := true, generation := 5 } :
        PollerState).generation ≠ 3 ∧
    isCancelShaped { initState with isRunning := true, generation := 5 }
        errPlain = false ∧
    (finishFailure opts0 true 0 3 errPlain
        { initState with isRunning := true, generation := 5 }).state.error =
      some errPlain ∧
    (finishFailure opts0 true 0 3 errPlain
        { initState with isRunning := true, generation := 5 }).events =
      [.onError errPlain] := by
  refine ⟨by decide, rfl, rfl, rfl⟩

/-- Claim C2, amended. For every cycle that fails with a non-cancellation
failure, the error is committed to Observable State and the error callback
fires *unconditionally* — whether or not the generation captured at the
cycle's start is still current; only the clearing of the in-flight flag is
generation-gated. -/
theorem finishFailure_commits_error_unconditionally (opts : Options)
    (en : Bool) (now : Int) (myGen : Nat) (e : ErrVal) (s : PollerState)
    (hc : isCancelShaped s e = false) :
    (finishFailure opts en now myGen e s).state.error = some e ∧
    (finishFailure opts en now myGen e s).events = [.onError e] ∧
    (finishFailure opts en now myGen e s).state.inFlight =
      (if myGen = s.generation then false else s.inFlight) := by
  simp only [finishFailure, isCancelShaped_opSettle, hc, Bool.false_eq_true,
    if_false]
  split <;>
    simp [finallyPart_inFlight, opSettle]

/-- Witness for `finishFailure_commits_error_unconditionally` at the stale
generation 3 against counter 5. -/
theorem finishFailure_commits_error_unconditionally_witness :
    (finishFailure opts0 true 0 3 errPlain
        { initState with isRunning := true, generation := 5 }).state.error =
      some errPlain :=
  (finishFailure_commits_error_unconditionally opts0 true 0 3 errPlain
    { initState with isRunning := true, generation := 5 } rfl).1

/-- Counterexample for **C9** as stated: a committed error does *not* remain
observable until a subsequent cycle completes — the next cycle's begin phase
(no completion yet) already resets it to `null`. -/
theorem error_cleared_before_next_completion :
    ({ initState with isRunning := true, error := some errPlain } :
        PollerState).error = some errPlain ∧
    (runOnceBegin opts0 true
        { initState with isRunning := true,
                         error := some errPlain }).isStarted = true ∧
    (runOnceBegin opts0 true
        { initState with isRunning := true,
                         error := some errPlain }).state.error = none := by
  exact ⟨rfl, rfl, rfl⟩

/-- Claim C9, amended. A committed error is retained until the next cycle
that passes the enablement and concurrency checks *begins*: the begin phase
clears it (before the fetch, regardless of that cycle's eventual outcome),
a skipped invocation leaves it unchanged, and a successful completion never
writes the error field (it stays cleared). -/
theorem error_retained_until_next_begin (opts : Options) (en : Bool)
    (myGen : Nat) (res : Int) (s : PollerState) :
    ((runOnceBegin opts en s).isStarted = true →
      (runOnceBegin opts en s).state.error = none) ∧
    ((runOnceBegin opts en s).isStarted = false →
      (runOnceBegin opts en s).state.error = s.error) ∧
    (finishSuccess opts en myGen res s).state.error = s.error := by
  refine ⟨?_, ?_, ?_⟩
  · simp only [runOnceBegin]
    split
    · simp [BeginResult.isStarted]
    · split
      · simp [BeginResult.isStarted]
      · simp [BeginResult.isStarted, BeginResult.state, fetchStart,
              setStartFlags, allocController, bumpGeneration]
  · simp only [runOnceBegin]
    split
    · simp [BeginResult.isStarted, BeginResult.state]
    · split
      · simp [BeginResult.isStarted, BeginResult.state]
      · simp [BeginResult.isStarted]
  · simp only [finishSuccess, opSettle]
    split <;> simp

/-- Witness for `error_retained_until_next_begin`: begin clears a previously
committed error; a skipped begin keeps it; success keeps the field as it
found it. -/
theorem error_retained_until_next_begin_witness :
    (runOnceBegin opts0 true
        { initState with isRunning := true,
                         error := some errPlain }).state.error = none :=
  (error_retained_until_next_begin opts0 true 0 0
    { initState with isRunning := true, error := some errPlain }).1 rfl

/-- Claim C4. A non-cancellation failure with status 429 enters backoff with
exactly the clamped delay
`clamp(suggested-if-finite ?? defaultRetryAfterMs ?? 1000, 0,
maxRetryAfterMs ?? 60000)`: `busy` is set, `busyUntil = now + delay`, and
(while the loop is running and enabled) the pending trigger fires after that
delay — the `finally` block's interval scheduling is bypassed because `busy`
is set. -/
theorem finishFailure_429_schedules_clamped (opts : Options) (now : Int)
    (myGen : Nat) (e : ErrVal) (s : PollerState)
    (hc : isCancelShaped s e = false) (h429 : e.status = some 429)
    (hrun : s.isRunning = true) :
    (finishFailure opts true now myGen e s).state.busy = true ∧
    (finishFailure opts true now myGen e s).state.busyUntil =
      some (now + max 0 (min ((parseRetryAfterMs e).getD
        (opts.defaultRetryAfterMs.getD 1000))
        (opts.maxRetryAfterMs.getD 60000))) ∧
    (finishFailure opts true now myGen e s).state.timer =
      some (max 0 (min ((parseRetryAfterMs e).getD
        (opts.defaultRetryAfterMs.getD 1000))
        (opts.maxRetryAfterMs.getD 60000))) := by
  simp only [finishFailure, isCancelShaped_opSettle, hc, Bool.false_eq_true,
    if_false, h429, eq_self_iff_true, if_true, clampRetryAfter]
  refine ⟨?_, ?_, ?_⟩
  · simp
  · simp
  · rw [finallyPart_timer_of_busy]
    · simp [schedule, clearTimer, opSettle, hrun]
    · simp

/-- Witness for `finishFailure_429_schedules_clamped`: suggested delay
5000 ms at time 100 yields `busyUntil = 5100` and a 5000 ms trigger. -/
theorem finishFailure_429_schedules_clamped_witness :
    (finishFailure opts0 true 100 1 err429
        { initState with isRunning := true, generation := 1,
                         inFlight := true }).state.busy = true ∧
    (finishFailure opts0 true 100 1 err429
        { initState with isRunning := true, generation := 1,
                         inFlight := true }).state.busyUntil = some 5100 ∧
    (finishFailure opts0 true 100 1 err429
        { initState with isRunning := true, generation := 1,
                         inFlight := true }).state.timer = some 5000 :=
  finishFailure_429_schedules_clamped opts0 100 1 err429
    { initState with isRunning := true, generation := 1, inFlight := true }
    rfl rfl rfl

/-! ### Live cancellation handles -/

theorem wfb_pending (s : PollerState) (h : wfb s = true) :
    ∀ p ∈ s.pendingOps, p.2 ∈ s.abortedIds ∨ s.controller = some p.2 := by
  intro p hp
  simp only [wfb, Bool.and_eq_true, List.all_eq_true] at h
  have h1 := h.1.1.1 p hp
  rcases Bool.or_eq_true _ _ |>.mp h1 with hcont | hbeq
  · exact Or.inl (List.mem_of_elem_eq_true hcont)
  · exact Or.inr (beq_iff_eq.mp hbeq)

theorem mem_liveCtrls (s : PollerState) (x : Nat) :
    x ∈ liveCtrls s ↔
      ((s.controller = some x ∨ ∃ p ∈ s.pendingOps, p.2 = x) ∧
        x ∉ s.abortedIds) := by
  simp only [liveCtrls, List.mem_toFinset, List.mem_filter, List.mem_append,
    List.mem_map, Option.mem_toList, Option.mem_def, List.elem_eq_mem,
    Bool.not_eq_eq_eq_not, Bool.not_true, decide_eq_false_iff_not]

theorem liveCtrls_eq_empty_of (s : PollerState) (hc : s.controller = none)
    (h : ∀ p ∈ s.pendingOps, p.2 ∈ s.abortedIds) : liveCtrls s = ∅ := by
  rw [Finset.eq_empty_iff_forall_not_mem]
  intro x hx
  rw [mem_liveCtrls] at hx
  rcases hx with ⟨hsrc, hnab⟩
  rcases hsrc with hco | ⟨p, hp, rfl⟩
  · rw [hc] at hco; cases hco
  · exact hnab (h p hp)

theorem liveCtrls_card_le_one_of (s : PollerState)
    (h : ∀ p ∈ s.pendingOps, p.2 ∈ s.abortedIds ∨ s.controller = some p.2) :
    (liveCtrls s).card ≤ 1 := by
  rcases hco : s.controller with _ | c
  · rw [liveCtrls_eq_empty_of s hco]
    · exact Nat.zero_le 1
    · intro p hp
      rcases h p hp with hab | hc
      · exact hab
      · rw [hco] at hc; cases hc
  · rw [Finset.card_le_one]
    have key : ∀ x ∈ liveCtrls s, x = c := by
      intro x hx
      rw [mem_liveCtrls] at hx
      rcases hx with ⟨hsrc, hnab⟩
      rcases hsrc with hcx | ⟨p, hp, rfl⟩
      · rw [hco] at hcx; exact (Option.some_injective _ hcx).symm
      · rcases h p hp with hab | hc
        · exact absurd hab hnab
        · rw [hco] at hc; exact (Option.some_injective _ hc.symm)

    intro a ha b hb
    rw [key a ha, key b hb]

/-- Claim C7. `stop()` is idempotent and always establishes its postcondition:
not running, no pending timer, in-flight flag down, backoff state cleared,
and — for any state whose ghost controller log is well-formed — no live
cancellation handle remains (the held controller is aborted, and every
still-unsettled operation's controller was already aborted). -/
theorem stop_idempotent_and_clean (s : PollerState) (hwf : wfb s = true) :
    stop (stop s) = stop s ∧
    (stop s).isRunning = false ∧ (stop s).timer = none ∧
    (stop s).inFlight = false ∧ (stop s).busy = false ∧
    (stop s).busyUntil = none ∧ liveCtrls (stop s) = ∅ := by
  have hpend := wfb_pending s hwf
  refine ⟨?_, ?_, ?_, ?_, ?_, ?_, ?_⟩
  · rcases h : s.controller with _ | i <;>
      simp [stop, clearTimer, abortInFlight, h]
  · rcases h : s.controller with _ | i <;>
      simp [stop, clearTimer, abortInFlight, h]
  · rcases h : s.controller with _ | i <;>
      simp [stop, clearTimer, abortInFlight, h]
  · rcases h : s.controller with _ | i <;>
      simp [stop, clearTimer, abortInFlight, h]
  · rcases h : s.controller with _ | i <;>
      simp [stop, clearTimer, abortInFlight, h]
  · rcases h : s.controller with _ | i <;>
      simp [stop, clearTimer, abortInFlight, h]
  · apply liveCtrls_eq_empty_of
    · rcases h : s.controller with _ | i <;>
        simp [stop, clearTimer, abortInFlight, h]
    · intro p hp
      rcases h : s.controller with _ | i
      · have hp' : p ∈ s.pendingOps := by
          simpa [stop, clearTimer, abortInFlight, h] using hp
        rcases hpend p hp' with hab | hc
        · simpa [stop, clearTimer, abortInFlight, h] using hab
        · rw [h] at hc; cases hc
      · have hp' : p ∈ s.pendingOps := by
          simpa [stop, clearTimer, abortInFlight, h] using hp
        rcases hpend p hp' with hab | hc
        · simp [stop, clearTimer, abortInFlight, h]
          exact Or.inr hab
        · rw [h] at hc
          simp [stop, clearTimer, abortInFlight, h]
          exact Or.inl (Option.some_injective _ hc).symm

/-- Witness for `stop_idempotent_and_clean` at a concrete busy in-flight
state with a pending timer and a live controller. -/
theorem stop_idempotent_and_clean_witness :
    stop (stop busyStopState) = stop busyStopState ∧
    (stop busyStopState).isRunning = false ∧
    (stop busyStopState).timer = none ∧
    (stop busyStopState).inFlight = false ∧
    (stop busyStopState).busy = false ∧
    (stop busyStopState).busyUntil = none ∧
    liveCtrls (stop busyStopState) = ∅ :=
  stop_idempotent_and_clean busyStopState (by decide)

/-- Claim C6. Under `abortPrevious`, starting a cycle while an operation is in
flight runs exactly the micro-step chain `abortInFlight` → generation bump →
controller creation → flag writes → fetch start; the prior handle is aborted
and the reference dropped strictly before the new handle exists (after the
abort step there is *no* live handle at all), and every intermediate state
of the chain carries at most one live cancellation handle. -/
theorem abortPrevious_aborts_before_create (opts : Options) (s : PollerState)
    (oldId : Nat) (s1 s2 s3 s4 s5 : PollerState)
    (hwf : wfb s = true) (hconc : opts.concurrency = .abortPrevious)
    (hin : s.inFlight = true) (hold : s.controller = some oldId)
    (h1 : s1 = abortInFlight s) (h2 : s2 = bumpGeneration s1)
    (h3 : s3 = allocController s2) (h4 : s4 = setStartFlags s3)
    (h5 : s5 = fetchStart s2.generation s2.nextCtrlId s4) :
    runOnceBegin opts true s = .started s5 s2.generation s2.nextCtrlId ∧
    s1.controller = none ∧ oldId ∈ s1.abortedIds ∧
    (liveCtrls s).card ≤ 1 ∧
    liveCtrls s1 = ∅ ∧ liveCtrls s2 = ∅ ∧
    s3.controller = some s.nextCtrlId ∧
    (liveCtrls s3).card ≤ 1 ∧ (liveCtrls s4).card ≤ 1 ∧
    (liveCtrls s5).card ≤ 1 := by
  subst h1 h2 h3 h4 h5
  have hpend := wfb_pending s hwf
  have habort : ∀ p ∈ s.pendingOps, p.2 ∈ (abortInFlight s).abortedIds := by
    intro p hp
    rcases hpend p hp with hab | hc
    · simp [abortInFlight, hold]
      exact Or.inr hab
    · rw [hold] at hc
      simp [abortInFlight, hold]
      exact Or.inl (Option.some_injective _ hc).symm
  refine ⟨?_, ?_, ?_, ?_, ?_, ?_, ?_, ?_, ?_, ?_⟩
  · simp [runOnceBegin, hconc, hin]
  · simp [abortInFlight, hold]
  · simp [abortInFlight, hold]
  · exact liveCtrls_card_le_one_of s hpend
  · apply liveCtrls_eq_empty_of
    · simp [abortInFlight, hold]
    · intro p hp
      exact habort p (by simpa [abortInFlight, hold] using hp)
  · apply liveCtrls_eq_empty_of
    · simp [bumpGeneration, abortInFlight, hold]
    · intro p hp
      have hp' : p ∈ s.pendingOps := by
        simpa [bumpGeneration, abortInFlight, hold] using hp
      simpa [bumpGeneration] using habort p hp'
  · simp [allocController, bumpGeneration, abortInFlight, hold]
  · apply liveCtrls_card_le_one_of
    intro p hp
    have hp' : p ∈ s.pendingOps := by
      simpa [allocController, bumpGeneration, abortInFlight, hold] using hp
    exact Or.inl (by
      simpa [allocController, bumpGeneration] using habort p hp')
  · apply liveCtrls_card_le_one_of
    intro p hp
    have hp' : p ∈ s.pendingOps := by
      simpa [setStartFlags, allocController, bumpGeneration, abortInFlight,
        hold] using hp
    exact Or.inl (by
      simpa [setStartFlags, allocController, bumpGeneration]
        using habort p hp')
  · apply liveCtrls_card_le_one_of
    intro p hp
    rcases (by
        simpa [fetchStart, setStartFlags, allocController, bumpGeneration,
          abortInFlight, hold] using hp :
        p = ((bumpGeneration (abortInFlight s)).generation,
              (bumpGeneration (abortInFlight s)).nextCtrlId) ∨
          p ∈ s.pendingOps) with hnew | hp'
    · subst hnew
      exact Or.inr (by
        simp [fetchStart, setStartFlags, allocController, bumpGeneration,
          abortInFlight, hold])
    · exact Or.inl (by
        simpa [fetchStart, setStartFlags, allocController, bumpGeneration]
          using habort p hp')

/-- Witness for `abortPrevious_aborts_before_create` at the concrete
in-flight state: controller 0 is aborted and dropped before controller 1 is
created, with at most one live handle throughout. -/
theorem abortPrevious_aborts_before_create_witness :
    runOnceBegin opts0 true inFlightState =
      .started
        (fetchStart (bumpGeneration (abortInFlight inFlightState)).generation
          (bumpGeneration (abortInFlight inFlightState)).nextCtrlId
          (setStartFlags (allocController
            (bumpGeneration (abortInFlight inFlightState)))))
        (bumpGeneration (abortInFlight inFlightState)).generation
        (bumpGeneration (abortInFlight inFlightState)).nextCtrlId ∧
    (abortInFlight inFlightState).controller = none ∧
    0 ∈ (abortInFlight inFlightState).abortedIds ∧
    (liveCtrls inFlightState).card ≤ 1 ∧
    liveCtrls (abortInFlight inFlightState) = ∅ ∧
    liveCtrls (bumpGeneration (abortInFlight inFlightState)) = ∅ ∧
    (allocController (bumpGeneration (abortInFlight inFlightState))).controller =
      some inFlightState.nextCtrlId ∧
    (liveCtrls (allocController
      (bumpGeneration (abortInFlight inFlightState)))).card ≤ 1 ∧
    (liveCtrls (setStartFlags (allocController
      (bumpGeneration (abortInFlight inFlightState))))).card ≤ 1 ∧
    (liveCtrls (fetchStart
      (bumpGeneration (abortInFlight inFlightState)).generation
      (bumpGeneration (abortInFlight inFlightState)).nextCtrlId
      (setStartFlags (allocController
        (bumpGeneration (abortInFlight inFlightState)))))).card ≤ 1 :=
  abortPrevious_aborts_before_create opts0 inFlightState 0
    (abortInFlight inFlightState)
    (bumpGeneration (abortInFlight inFlightState))
    (allocController (bumpGeneration (abortInFlight inFlightState)))
    (setStartFlags (allocController
      (bumpGeneration (abortInFlight inFlightState))))
    (fetchStart (bumpGeneration (abortInFlight inFlightState)).generation
      (bumpGeneration (abortInFlight inFlightState)).nextCtrlId
      (setStartFlags (allocController
        (bumpGeneration (abortInFlight inFlightState)))))
    (by decide) rfl rfl (by decide) rfl rfl rfl rfl rfl

end SerialPoller
